import Mathlib

/-
Verification of the ObjectConstructor machinery in src/syft/generic.py.

The module defines a proxy class that replaces a library constructor
(for example torch.Tensor) with an instance of ObjectConstructor.
Installation stashes the original constructor under a derived name
(original_<name>) on the same module, then rebinds the name to the
proxy.  Calls to the proxy run the three-step pipeline
pre_init / init / post_init.

The embedding below models a module (the constructor location) as an
association list from attribute names to values, and threads every
mutation explicitly.  Python AttributeError conditions become values of
an error type carried in Except.
-/

namespace Syft

/-- Reasons for the AttributeError conditions raised by the constructor
machinery in generic.py.  Every error this module raises is an
AttributeError in Python; the reason distinguishes the three messages. -/
inductive ErrReason where
  | duplicateInstallation
  | missingOriginalConstructor
  | missingAttr (name : String)
  deriving DecidableEq, Repr

/-- A Python exception raised by the modelled code. -/
inductive PyErr where
  | attributeError (r : ErrReason)
  deriving DecidableEq, Repr

/-- A Python value that can be bound at a (location, name) attribute slot:
a native class, a native standalone constructor function (such as
torch.tensor), or an ObjectConstructor proxy instance.  The Nat tags
distinguish different classes, functions and proxies. -/
inductive Value where
  | nativeClass (tag : Nat)
  | nativeFunc (tag : Nat)
  | proxy (tag : Nat)
  deriving DecidableEq, Repr

/-- Models the Python test isinstance(v, ObjectConstructor): true exactly
for proxy instances. -/
def isObjectConstructor : Value → Bool
  | Value.proxy _ => true
  | _ => false

/-- Models the Python test isinstance(v, type): true exactly for native
classes; native functions and proxy instances are not types. -/
def isType : Value → Bool
  | Value.nativeClass _ => true
  | _ => false

/-- The attribute dictionary of a module (a constructor location),
modelled as an association list from attribute names to values. -/
abbrev AttrMap := List (String × Value)

/-- Models Python getattr on a location, returning none when the
attribute is absent (where Python would raise AttributeError). -/
def getattr? : AttrMap → String → Option Value
  | [], _ => none
  | (k, v) :: rest, name => if k = name then some v else getattr? rest name

/-- Models Python setattr on a location: replaces an existing binding or
appends a new one. -/
def setattr : AttrMap → String → Value → AttrMap
  | [], name, v => [(name, v)]
  | (k, v0) :: rest, name, v =>
      if k = name then (name, v) :: rest else (k, v0) :: setattr rest name v

/-- Models Python hasattr on a location. -/
def hasattr (loc : AttrMap) (name : String) : Bool :=
  (getattr? loc name).isSome

/-- Modelled from the spec: get_original_constructor_name lives in
syft.util, which is not under src/.  The spec and the docstrings of
generic.py state that the original constructor is cached at the derived
name original_<name> (for example th.original_Tensor = th.Tensor). -/
def get_original_constructor_name (object_name : String) : String :=
  "original_" ++ object_name

/-- Modelled from the spec: copy_static_methods lives in syft.util,
which is not under src/.  The spec says it copies the static members of
the original class onto the type of the proxy.  The model records each
copy event as the pair (source class, proxy) in the installation state. -/
def copy_static_methods (from_class : Value) (to_class : Value) : Value × Value :=
  (from_class, to_class)

/-- The state of an ObjectConstructor proxy instance: its class attribute
constructor_name, and its only instance attribute
original_constructor_name, which is unset (none) until
store_original_constructor runs.  The constructor_location is threaded
separately as an AttrMap. -/
structure Proxy where
  constructor_name : String
  original_constructor_name : Option String
  deriving DecidableEq, Repr

/-- ObjectConstructor.store_original_constructor: sets the instance
attribute original_constructor_name to the derived name, reads the
current binding of constructor_name on the location (AttributeError if
absent), and stashes it under the derived name unless an attribute with
that name already exists.  Returns the outcome, the updated location and
the updated proxy (errors return the state mutated so far). -/
def store_original_constructor (loc : AttrMap) (p : Proxy) :
    Except PyErr Unit × AttrMap × Proxy :=
  let n := get_original_constructor_name p.constructor_name
  let p1 : Proxy := { p with original_constructor_name := some n }
  match getattr? loc p.constructor_name with
  | none => (Except.error (PyErr.attributeError (ErrReason.missingAttr p.constructor_name)), loc, p1)
  | some origVal =>
      if hasattr loc n then
        (Except.ok (), loc, p1)
      else
        (Except.ok (), setattr loc n origVal, p1)

/-- ObjectConstructor.original_constructor property: looks up the stashed
symbol at the derived name; both a missing original_constructor_name
instance attribute and a failing derived-name lookup raise the custom
missing-original-constructor AttributeError (the source wraps the lookup
in try/except AttributeError and re-raises). -/
def original_constructor (loc : AttrMap) (p : Proxy) : Except PyErr Value :=
  match p.original_constructor_name with
  | none => Except.error (PyErr.attributeError ErrReason.missingOriginalConstructor)
  | some n =>
      match getattr? loc n with
      | none => Except.error (PyErr.attributeError ErrReason.missingOriginalConstructor)
      | some v => Except.ok v

/-- The installation state: the location attribute map together with the
trace of copy_static_methods events performed so far. -/
structure InstallState where
  location : AttrMap
  staticCopies : List (Value × Value)
  deriving DecidableEq, Repr

/-- ObjectConstructor.install_inside_library: if the current binding at
(location, constructor_name) is already an ObjectConstructor instance,
raises the duplicate-installation AttributeError without mutating
anything; otherwise stashes the original constructor, rebinds the name
to the proxy instance selfVal, and, when the stashed original
constructor is a class, copies its static methods onto the type of the
proxy. -/
def install_inside_library (st : InstallState) (p : Proxy) (selfVal : Value) :
    Except PyErr Unit × InstallState × Proxy :=
  match getattr? st.location p.constructor_name with
  | none => (Except.error (PyErr.attributeError (ErrReason.missingAttr p.constructor_name)), st, p)
  | some cur =>
      if isObjectConstructor cur then
        (Except.error (PyErr.attributeError ErrReason.duplicateInstallation), st, p)
      else
        match store_original_constructor st.location p with
        | (Except.error e, loc1, p1) => (Except.error e, { st with location := loc1 }, p1)
        | (Except.ok _, loc1, p1) =>
            let loc2 := setattr loc1 p.constructor_name selfVal
            match original_constructor loc2 p1 with
            | Except.error e => (Except.error e, { st with location := loc2 }, p1)
            | Except.ok orig =>
                if isType orig then
                  (Except.ok (), { location := loc2,
                                   staticCopies := st.staticCopies ++ [copy_static_methods orig selfVal] }, p1)
                else
                  (Except.ok (), { location := loc2, staticCopies := st.staticCopies }, p1)

/-- The positional arguments of a constructor call, with argument values
modelled as natural number atoms. -/
abbrev Args := List Nat

/-- The keyword arguments of a constructor call. -/
abbrev Kwargs := List (String × Nat)

/-- A Python object produced by a constructor: it records the constructor
value that created it, the arguments of the call, and its own attribute
dictionary (where an id would be assigned). -/
structure PyObject where
  ctor : Value
  args : Args
  kwargs : Kwargs
  attrs : List (String × Nat)
  deriving DecidableEq, Repr

/-- Modelled from the spec: applying a native library constructor (code
outside this repository) to arguments produces a fresh object of that
constructor with an empty attribute dictionary. -/
def applyConstructor (c : Value) (args : Args) (kwargs : Kwargs) : PyObject :=
  { ctor := c, args := args, kwargs := kwargs, attrs := [] }

/-- Models Python isinstance of an object against a native class: true
exactly when the object was created by that constructor. -/
def py_isinstance (x : PyObject) (c : Value) : Bool :=
  decide (x.ctor = c)

/-- ObjectConstructor.__instancecheck__: the classmethod looks up the
symbol stashed at the derived name on the constructor location and
delegates the isinstance check to it; a missing stash raises
AttributeError (the getattr is unguarded). -/
def instancecheck (loc : AttrMap) (constructor_name : String) (inst : PyObject) :
    Except PyErr Bool :=
  match getattr? loc (get_original_constructor_name constructor_name) with
  | none =>
      Except.error (PyErr.attributeError
        (ErrReason.missingAttr (get_original_constructor_name constructor_name)))
  | some c => Except.ok (py_isinstance inst c)

/-- Attribute lookup on the proxy instance itself (self.<k>).  The class
ObjectConstructor only ever assigns the instance attribute
original_constructor_name (in store_original_constructor) and carries
the class attribute constructor_name; any other attribute access raises
AttributeError. -/
def proxyGetattr (p : Proxy) (k : String) : Except PyErr String :=
  if k = "constructor_name" then
    Except.ok p.constructor_name
  else if k = "original_constructor_name" then
    match p.original_constructor_name with
    | some s => Except.ok s
    | none => Except.error (PyErr.attributeError (ErrReason.missingAttr k))
  else
    Except.error (PyErr.attributeError (ErrReason.missingAttr k))

/-- ObjectConstructor.assign_id: the source executes
self.obj.id = generate_random_id() and then returns obj.  Evaluating
self.obj reads the attribute obj on the proxy instance, which is never
assigned anywhere in the class, so the statement raises AttributeError
before any id is assigned.  (The ok branch is unreachable.) -/
def assign_id (p : Proxy) (obj : PyObject) : Except PyErr PyObject :=
  match proxyGetattr p "obj" with
  | Except.error e => Except.error e
  | Except.ok _ => Except.ok obj

/-- ObjectConstructor.pre_init default: the identity on (args, kwargs). -/
def pre_init (args : Args) (kwargs : Kwargs) : Args × Kwargs :=
  (args, kwargs)

/-- ObjectConstructor.init default: applies the original constructor
(read through the original_constructor property) to the rewritten
arguments. -/
def init (loc : AttrMap) (p : Proxy) (args : Args) (kwargs : Kwargs) :
    Except PyErr PyObject :=
  match original_constructor loc p with
  | Except.error e => Except.error e
  | Except.ok c => Except.ok (applyConstructor c args kwargs)

/-- ObjectConstructor.post_init default: assigns an id via assign_id and
returns the result; the args and kwargs are received but unused. -/
def post_init (p : Proxy) (obj : PyObject) (args : Args) (kwargs : Kwargs) :
    Except PyErr PyObject :=
  assign_id p obj

/-- The three-step pipeline of ObjectConstructor.__call__, generic in the
three hook methods: pre_init rewrites the arguments, init builds the raw
object from them, post_init receives the raw object together with the
same rewritten arguments, and its result is returned.  An exception in
init propagates. -/
def callWith (pre : Args → Kwargs → Args × Kwargs)
    (initStep : Args → Kwargs → Except PyErr PyObject)
    (post : PyObject → Args → Kwargs → Except PyErr PyObject)
    (args : Args) (kwargs : Kwargs) : Except PyErr PyObject :=
  let (newArgs, newKwargs) := pre args kwargs
  match initStep newArgs newKwargs with
  | Except.error e => Except.error e
  | Except.ok obj => post obj newArgs newKwargs

/-- ObjectConstructor.__call__ with the default hooks. -/
def obj_call (loc : AttrMap) (p : Proxy) (args : Args) (kwargs : Kwargs) :
    Except PyErr PyObject :=
  callWith pre_init (init loc p) (post_init p) args kwargs

/-! Helper lemmas about the attribute map. -/

theorem getattr_setattr_self (m : AttrMap) (k : String) (v : Value) :
    getattr? (setattr m k v) k = some v := by
  induction m with
  | nil => simp [setattr, getattr?]
  | cons hd tl ih =>
      obtain ⟨k0, v0⟩ := hd
      by_cases h : k0 = k
      · simp [setattr, getattr?, h]
      · simp [setattr, getattr?, h, ih]

theorem getattr_setattr_ne (m : AttrMap) (k k2 : String) (v : Value) (h : k ≠ k2) :
    getattr? (setattr m k v) k2 = getattr? m k2 := by
  induction m with
  | nil => simp [setattr, getattr?, h]
  | cons hd tl ih =>
      obtain ⟨k0, v0⟩ := hd
      by_cases h0 : k0 = k
      · subst h0
        simp [setattr, getattr?, h]
      · simp [setattr, getattr?, h0, ih]

theorem original_name_ne (n : String) : get_original_constructor_name n ≠ n := by
  intro h
  have hlen := congrArg String.length h
  rw [get_original_constructor_name] at hlen
  simp [String.length_append] at hlen
  exact absurd hlen (by decide)

/-- Characterisation of a successful installation: starting from a
location where the name is bound to a non-proxy value v and the derived
name is unbound, install_inside_library stashes v under the derived
name, rebinds the name to the proxy, records a static-methods copy
exactly when v is a class, and marks the derived name on the proxy. -/
theorem install_success (st : InstallState) (p : Proxy) (selfVal v : Value)
    (hbind : getattr? st.location p.constructor_name = some v)
    (hnative : isObjectConstructor v = false)
    (hfresh : hasattr st.location (get_original_constructor_name p.constructor_name) = false) :
    install_inside_library st p selfVal =
      (Except.ok (),
       { location := setattr (setattr st.location
             (get_original_constructor_name p.constructor_name) v)
             p.constructor_name selfVal,
         staticCopies := if isType v then st.staticCopies ++ [(v, selfVal)]
                         else st.staticCopies },
       { p with
           original_constructor_name := some (get_original_constructor_name p.constructor_name) }) := by
  have hne : p.constructor_name ≠ get_original_constructor_name p.constructor_name :=
    fun h => original_name_ne p.constructor_name h.symm
  have hderived :
      getattr? (setattr (setattr st.location
          (get_original_constructor_name p.constructor_name) v)
          p.constructor_name selfVal)
          (get_original_constructor_name p.constructor_name) = some v := by
    rw [getattr_setattr_ne _ _ _ _ hne, getattr_setattr_self]
  simp only [install_inside_library, store_original_constructor, hbind, hnative,
    hfresh, Bool.false_eq_true, if_false, original_constructor, hderived,
    copy_static_methods]
  by_cases hT : isType v <;> simp [hT]

/-- Installing over a binding that is already a proxy raises the
duplicate-installation error without mutating the state. -/
theorem install_duplicate_error (st : InstallState) (p : Proxy) (selfVal v : Value)
    (hbind : getattr? st.location p.constructor_name = some v)
    (hproxy : isObjectConstructor v = true) :
    install_inside_library st p selfVal =
      (Except.error (PyErr.attributeError ErrReason.duplicateInstallation), st, p) := by
  simp [install_inside_library, hbind, hproxy]

/-- store_original_constructor always marks the proxy with the derived
name, whatever else happens. -/
theorem store_sets_derived_name (loc : AttrMap) (p : Proxy) :
    (store_original_constructor loc p).2.2.original_constructor_name =
      some (get_original_constructor_name p.constructor_name) := by
  rw [store_original_constructor]
  rcases hget : getattr? loc p.constructor_name with _ | v
  · simp [hget]
  · simp only [hget]
    split <;> rfl

/-- The spec state Uninstalled: the native constructor (a non-proxy
value) is bound at the name and nothing is stashed at the derived name. -/
def Uninstalled (loc : AttrMap) (name : String) : Prop :=
  (∃ v, getattr? loc name = some v ∧ isObjectConstructor v = false) ∧
    hasattr loc (get_original_constructor_name name) = false

/-- The spec state Installed: a proxy is bound at the name and the
original is stashed at the derived name. -/
def Installed (loc : AttrMap) (name : String) : Prop :=
  (∃ v, getattr? loc name = some v ∧ isObjectConstructor v = true) ∧
    hasattr loc (get_original_constructor_name name) = true

/-! Concrete fixtures used by the witnesses. -/

/-- A native class standing for torch.Tensor. -/
def tensorClass : Value := Value.nativeClass 0

/-- A location where the name Tensor is bound to the native class and
nothing has been installed yet. -/
def freshLoc : AttrMap := [("Tensor", tensorClass)]

/-- The fresh installation state over freshLoc. -/
def freshSt : InstallState := { location := freshLoc, staticCopies := [] }

/-- A proxy for the Tensor constructor before any stashing. -/
def tensorProxy : Proxy :=
  { constructor_name := "Tensor", original_constructor_name := none }

/-- A location as it looks after a successful installation: the proxy is
bound at Tensor and the native class is stashed at original_Tensor. -/
def installedLoc : AttrMap :=
  [("original_Tensor", tensorClass), ("Tensor", Value.proxy 7)]

/-- The Tensor proxy after stashing marked it with the derived name. -/
def installedProxy : Proxy :=
  { constructor_name := "Tensor", original_constructor_name := some "original_Tensor" }

/-- The installation state corresponding to installedLoc. -/
def installedSt : InstallState := { location := installedLoc, staticCopies := [] }

/-! The claims. -/

/-- C1: the claim states that calling an installed proxy with the default
hooks returns the constructed object with a freshly generated unique id
assigned to it.  The code cannot do this: assign_id executes
self.obj.id = generate_random_id(), reading the attribute obj on the
proxy instance, which is never assigned, so every default call raises
AttributeError instead of returning the object.  This theorem evaluates
the modelled code at a failing input: an installed Tensor proxy called
with arguments [1, 2]. -/
theorem C1_assign_id_attribute_error :
    obj_call installedLoc installedProxy [1, 2] [] =
      Except.error (PyErr.attributeError (ErrReason.missingAttr "obj")) := by
  rfl

/-- C2: installing a second proxy at a (location, name) pair whose
binding is already an ObjectConstructor instance raises the
duplicate-installation AttributeError and returns the state and proxy
unchanged (the raise happens before any mutation). -/
theorem C2_duplicate_install_fails (st : InstallState) (p : Proxy) (selfVal v : Value)
    (hbind : getattr? st.location p.constructor_name = some v)
    (hproxy : isObjectConstructor v = true) :
    install_inside_library st p selfVal =
      (Except.error (PyErr.attributeError ErrReason.duplicateInstallation), st, p) :=
  install_duplicate_error st p selfVal v hbind hproxy

/-- Witness for C2 at a concrete installed state. -/
theorem C2_duplicate_install_fails_witness :
    install_inside_library installedSt installedProxy (Value.proxy 9) =
      (Except.error (PyErr.attributeError ErrReason.duplicateInstallation),
       installedSt, installedProxy) :=
  C2_duplicate_install_fails installedSt installedProxy (Value.proxy 9)
    (Value.proxy 7) rfl rfl

/-- C3: the proxy type check returns exactly the result of the isinstance
check against the constructor stashed under the derived name: whenever
the stash holds c, the check returns ok of the isinstance result against
c, and it returns ok true iff the object satisfies isinstance against c. -/
theorem C3_instancecheck_delegates (loc : AttrMap) (name : String) (x : PyObject) (c : Value)
    (hstash : getattr? loc (get_original_constructor_name name) = some c) :
    instancecheck loc name x = Except.ok (py_isinstance x c) ∧
      (instancecheck loc name x = Except.ok true ↔ py_isinstance x c = true) := by
  constructor
  · simp [instancecheck, hstash]
  · simp [instancecheck, hstash]

/-- Witness for C3: an object built by the native class tests positive
through the installed proxy check. -/
theorem C3_instancecheck_delegates_witness :
    instancecheck installedLoc "Tensor" (applyConstructor tensorClass [] []) =
        Except.ok (py_isinstance (applyConstructor tensorClass [] []) tensorClass) ∧
      (instancecheck installedLoc "Tensor" (applyConstructor tensorClass [] []) = Except.ok true ↔
        py_isinstance (applyConstructor tensorClass [] []) tensorClass = true) :=
  C3_instancecheck_delegates installedLoc "Tensor" (applyConstructor tensorClass [] [])
    tensorClass rfl

/-- C4: a call runs exactly the pipeline pre_init, init, post_init with
no branching: the rewritten arguments of pre_init feed init verbatim,
the raw object of init and the same rewritten arguments feed post_init
verbatim and its result is returned; the default pre_init is the
identity on (args, kwargs); the default init applies the original
constructor to the rewritten arguments; and the default call is exactly
this pipeline over the default hooks. -/
theorem C4_call_pipeline (pre : Args → Kwargs → Args × Kwargs)
    (initStep : Args → Kwargs → Except PyErr PyObject)
    (post : PyObject → Args → Kwargs → Except PyErr PyObject)
    (loc : AttrMap) (p : Proxy) (args : Args) (kwargs : Kwargs) :
    (callWith pre initStep post args kwargs =
      match initStep (pre args kwargs).1 (pre args kwargs).2 with
      | Except.error e => Except.error e
      | Except.ok obj => post obj (pre args kwargs).1 (pre args kwargs).2) ∧
    pre_init args kwargs = (args, kwargs) ∧
    (init loc p args kwargs =
      match original_constructor loc p with
      | Except.error e => Except.error e
      | Except.ok c => Except.ok (applyConstructor c args kwargs)) ∧
    obj_call loc p args kwargs = callWith pre_init (init loc p) (post_init p) args kwargs := by
  refine ⟨?_, rfl, rfl, rfl⟩
  rcases hpre : pre args kwargs with ⟨a, k⟩
  simp [callWith, hpre]

/-- C5: a successful installation over the native constructor (non-proxy
binding, nothing stashed yet) leaves the pre-installation binding
reachable at the derived original name and rebinds the name to the
proxy instance. -/
theorem C5_install_stashes_and_rebinds (st : InstallState) (p : Proxy) (selfVal v : Value)
    (hbind : getattr? st.location p.constructor_name = some v)
    (hnative : isObjectConstructor v = false)
    (hfresh : hasattr st.location (get_original_constructor_name p.constructor_name) = false) :
    (install_inside_library st p selfVal).1 = Except.ok () ∧
    getattr? (install_inside_library st p selfVal).2.1.location
        (get_original_constructor_name p.constructor_name) = some v ∧
    getattr? (install_inside_library st p selfVal).2.1.location
        p.constructor_name = some selfVal := by
  rw [install_success st p selfVal v hbind hnative hfresh]
  dsimp only
  have hne : p.constructor_name ≠ get_original_constructor_name p.constructor_name :=
    fun h => original_name_ne p.constructor_name h.symm
  refine ⟨rfl, ?_, getattr_setattr_self _ _ _⟩
  rw [getattr_setattr_ne _ _ _ _ hne, getattr_setattr_self]

/-- Witness for C5 at a fresh Tensor location. -/
theorem C5_install_stashes_and_rebinds_witness :
    (install_inside_library freshSt tensorProxy (Value.proxy 7)).1 = Except.ok () ∧
    getattr? (install_inside_library freshSt tensorProxy (Value.proxy 7)).2.1.location
        (get_original_constructor_name tensorProxy.constructor_name) = some tensorClass ∧
    getattr? (install_inside_library freshSt tensorProxy (Value.proxy 7)).2.1.location
        tensorProxy.constructor_name = some (Value.proxy 7) :=
  C5_install_stashes_and_rebinds freshSt tensorProxy (Value.proxy 7) tensorClass rfl rfl rfl

/-- C6: the original_constructor accessor returns the symbol stashed at
the derived name when the lookup succeeds; it returns an error exactly
when the derived-name lookup fails (either the instance attribute
original_constructor_name was never assigned, or nothing is bound at
that name on the location); and the only error it ever produces is the
missing-original-constructor AttributeError. -/
theorem C6_original_constructor_accessor (loc : AttrMap) (p : Proxy) :
    (∀ n v, p.original_constructor_name = some n → getattr? loc n = some v →
        original_constructor loc p = Except.ok v) ∧
    ((∃ e, original_constructor loc p = Except.error e) ↔
        ∀ n, p.original_constructor_name = some n → getattr? loc n = none) ∧
    (∀ e, original_constructor loc p = Except.error e →
        e = PyErr.attributeError ErrReason.missingOriginalConstructor) := by
  rcases hocn : p.original_constructor_name with _ | n
  · refine ⟨?_, ⟨?_, ?_⟩, ?_⟩
    · intro n v h1 _
      exact absurd h1 (by simp)
    · intro _ n h1
      exact absurd h1 (by simp)
    · intro _
      exact ⟨PyErr.attributeError ErrReason.missingOriginalConstructor,
        by simp [original_constructor, hocn]⟩
    · intro e he
      simp [original_constructor, hocn] at he
      exact he.symm
  · rcases hget : getattr? loc n with _ | v
    · refine ⟨?_, ⟨?_, ?_⟩, ?_⟩
      · intro n2 v h1 h2
        have hn : n2 = n := by injection h1 with h; exact h.symm
        rw [hn, hget] at h2
        exact absurd h2 (by simp)
      · intro _ n2 h1
        have hn : n2 = n := by injection h1 with h; exact h.symm
        rw [hn]
        exact hget
      · intro _
        exact ⟨PyErr.attributeError ErrReason.missingOriginalConstructor,
          by simp [original_constructor, hocn, hget]⟩
      · intro e he
        simp [original_constructor, hocn, hget] at he
        exact he.symm
    · refine ⟨?_, ⟨?_, ?_⟩, ?_⟩
      · intro n2 v2 h1 h2
        have hn : n2 = n := by injection h1 with h; exact h.symm
        rw [hn, hget] at h2
        have hv : v = v2 := by injection h2
        simp [original_constructor, hocn, hget, hv]
      · intro he
        rcases he with ⟨e, he⟩
        simp [original_constructor, hocn, hget] at he
      · intro hall
        have h2 := hall n rfl
        rw [hget] at h2
        exact absurd h2 (by simp)
      · intro e he
        simp [original_constructor, hocn, hget] at he

/-- Witness for C6 at the installed Tensor proxy. -/
theorem C6_original_constructor_accessor_witness :
    original_constructor installedLoc installedProxy = Except.ok tensorClass :=
  (C6_original_constructor_accessor installedLoc installedProxy).1
    "original_Tensor" tensorClass rfl rfl

/-- C7: on the success path of installation, static members of the
stashed original constructor are copied onto the type of the proxy
exactly when the original is a class: installing over a class appends
one copy event, installing over a plain function leaves the copy trace
unchanged. -/
theorem C7_static_copy_iff_class (st : InstallState) (p : Proxy) (selfVal v : Value)
    (hbind : getattr? st.location p.constructor_name = some v)
    (hnative : isObjectConstructor v = false)
    (hfresh : hasattr st.location (get_original_constructor_name p.constructor_name) = false) :
    (isType v = true →
      (install_inside_library st p selfVal).2.1.staticCopies =
        st.staticCopies ++ [copy_static_methods v selfVal]) ∧
    (isType v = false →
      (install_inside_library st p selfVal).2.1.staticCopies = st.staticCopies) := by
  rw [install_success st p selfVal v hbind hnative hfresh]
  constructor
  · intro hT
    simp [hT, copy_static_methods]
  · intro hT
    simp [hT]

/-- Witness for C7 installing over the native Tensor class. -/
theorem C7_static_copy_iff_class_witness :
    (isType tensorClass = true →
      (install_inside_library freshSt tensorProxy (Value.proxy 7)).2.1.staticCopies =
        freshSt.staticCopies ++ [copy_static_methods tensorClass (Value.proxy 7)]) ∧
    (isType tensorClass = false →
      (install_inside_library freshSt tensorProxy (Value.proxy 7)).2.1.staticCopies =
        freshSt.staticCopies) :=
  C7_static_copy_iff_class freshSt tensorProxy (Value.proxy 7) tensorClass rfl rfl rfl

/-- C8: the installation state machine on a (location, name) pair: from
the Uninstalled state an install succeeds and moves to Installed, and
from the Installed state every further install attempt raises the
duplicate-installation error and leaves the state unchanged, so the
Installed state is never left and at most one proxy is ever installed
at the pair. -/
theorem C8_install_state_machine (name : String) :
    (∀ (st : InstallState) (p : Proxy) (selfVal : Value),
        p.constructor_name = name →
        isObjectConstructor selfVal = true →
        Uninstalled st.location name →
        (install_inside_library st p selfVal).1 = Except.ok () ∧
          Installed (install_inside_library st p selfVal).2.1.location name) ∧
    (∀ (st : InstallState) (p : Proxy) (selfVal : Value),
        p.constructor_name = name →
        Installed st.location name →
        install_inside_library st p selfVal =
          (Except.error (PyErr.attributeError ErrReason.duplicateInstallation), st, p) ∧
          Installed st.location name) := by
  constructor
  · intro st p selfVal hpname hself hun
    subst hpname
    obtain ⟨⟨v, hbind, hnative⟩, hfresh⟩ := hun
    rw [install_success st p selfVal v hbind hnative hfresh]
    dsimp only
    have hne : p.constructor_name ≠ get_original_constructor_name p.constructor_name :=
      fun h => original_name_ne p.constructor_name h.symm
    have hd : getattr? (setattr (setattr st.location
          (get_original_constructor_name p.constructor_name) v)
          p.constructor_name selfVal)
          (get_original_constructor_name p.constructor_name) = some v := by
      rw [getattr_setattr_ne _ _ _ _ hne, getattr_setattr_self]
    refine ⟨rfl, ⟨selfVal, getattr_setattr_self _ _ _, hself⟩, ?_⟩
    simp [hasattr, hd]
  · intro st p selfVal hpname hin
    subst hpname
    obtain ⟨⟨v, hbind, hproxy⟩, hstash⟩ := hin
    exact ⟨install_duplicate_error st p selfVal v hbind hproxy,
      ⟨v, hbind, hproxy⟩, hstash⟩

/-- Witness for C8: the Uninstalled-to-Installed transition at the fresh
Tensor location. -/
theorem C8_install_state_machine_witness :
    (install_inside_library freshSt tensorProxy (Value.proxy 7)).1 = Except.ok () ∧
      Installed (install_inside_library freshSt tensorProxy (Value.proxy 7)).2.1.location
        "Tensor" :=
  (C8_install_state_machine "Tensor").1 freshSt tensorProxy (Value.proxy 7) rfl rfl
    ⟨⟨tensorClass, rfl, rfl⟩, rfl⟩

/-- C9: calling a proxy on which no installation or stashing ever ran
(so its original_constructor_name instance attribute is unset) raises
the missing-original-constructor AttributeError instead of constructing
an object: the call pipeline performs no installed-check and fails
inside init when the original_constructor property is read. -/
theorem C9_call_before_install_raises (loc : AttrMap) (p : Proxy)
    (args : Args) (kwargs : Kwargs)
    (h : p.original_constructor_name = none) :
    obj_call loc p args kwargs =
      Except.error (PyErr.attributeError ErrReason.missingOriginalConstructor) := by
  simp [obj_call, callWith, pre_init, init, original_constructor, h]

/-- Witness for C9: the fresh Tensor proxy called before installation. -/
theorem C9_call_before_install_raises_witness :
    obj_call freshLoc tensorProxy [1] [] =
      Except.error (PyErr.attributeError ErrReason.missingOriginalConstructor) :=
  C9_call_before_install_raises freshLoc tensorProxy [1] [] rfl

/-- C10: the stash is write-once and precedes the rebinding.  First, when
an attribute already exists at the derived name, store_original_constructor
leaves the location untouched, so the first stashed value persists across
every later call.  Second, whenever store_original_constructor succeeds,
the derived name is bound afterwards while the (location, name) binding
itself is untouched by the stashing step.  Third, on every success of
install_inside_library the final state has the proxy bound at the name
and the stash bound at the derived name, so the binding is never a proxy
while the derived name is unbound. -/
theorem C10_stash_write_once_before_rebind :
    (∀ (loc : AttrMap) (p : Proxy),
        hasattr loc (get_original_constructor_name p.constructor_name) = true →
        (store_original_constructor loc p).2.1 = loc) ∧
    (∀ (loc loc1 : AttrMap) (p p1 : Proxy) (r : Unit),
        store_original_constructor loc p = (Except.ok r, loc1, p1) →
        hasattr loc1 (get_original_constructor_name p.constructor_name) = true ∧
          getattr? loc1 p.constructor_name = getattr? loc p.constructor_name) ∧
    (∀ (st st2 : InstallState) (p p1 : Proxy) (selfVal : Value),
        install_inside_library st p selfVal = (Except.ok (), st2, p1) →
        getattr? st2.location p.constructor_name = some selfVal ∧
          hasattr st2.location (get_original_constructor_name p.constructor_name) = true) := by
  have hne : ∀ p : Proxy,
      get_original_constructor_name p.constructor_name ≠ p.constructor_name :=
    fun p => original_name_ne p.constructor_name
  refine ⟨?_, ?_, ?_⟩
  · intro loc p h
    rcases hget : getattr? loc p.constructor_name with _ | v
    · simp [store_original_constructor, hget]
    · simp [store_original_constructor, hget, h]
  · intro loc loc1 p p1 r hstore
    have hloc1 : (store_original_constructor loc p).2.1 = loc1 := by rw [hstore]
    rcases hget : getattr? loc p.constructor_name with _ | v
    · rw [store_original_constructor] at hstore
      simp [hget] at hstore
    · by_cases hh : hasattr loc (get_original_constructor_name p.constructor_name) = true
      · rw [store_original_constructor] at hloc1
        simp [hget, hh] at hloc1
        rw [← hloc1]
        exact ⟨hh, hget⟩
      · rw [store_original_constructor] at hloc1
        simp [hget, hh] at hloc1
        rw [← hloc1]
        constructor
        · simp [hasattr, getattr_setattr_self]
        · exact (getattr_setattr_ne _ _ _ _ (hne p)).trans hget
  · intro st st2 p p1 selfVal hinst
    have h1 : (install_inside_library st p selfVal).1 = Except.ok () := by rw [hinst]
    have h2 : (install_inside_library st p selfVal).2.1 = st2 := by rw [hinst]
    rcases hget : getattr? st.location p.constructor_name with _ | cur
    · rw [install_inside_library] at h1
      simp [hget] at h1
    · by_cases hoc : isObjectConstructor cur = true
      · rw [install_inside_library] at h1
        simp [hget, hoc] at h1
      · rcases hstore : store_original_constructor st.location p with ⟨sr, loc1, p1x⟩
        rcases sr with e | u
        · rw [install_inside_library] at h1
          simp [hget, hoc, hstore] at h1
        · have hp1x : p1x.original_constructor_name =
              some (get_original_constructor_name p.constructor_name) := by
            have hd := store_sets_derived_name st.location p
            rw [hstore] at hd
            simpa using hd
          rcases horig : original_constructor
              (setattr loc1 p.constructor_name selfVal) p1x with e2 | orig
          · rw [install_inside_library] at h1
            simp [hget, hoc, hstore, horig] at h1
          · have hstash : hasattr (setattr loc1 p.constructor_name selfVal)
                (get_original_constructor_name p.constructor_name) = true := by
              rcases hg2 : getattr? (setattr loc1 p.constructor_name selfVal)
                  (get_original_constructor_name p.constructor_name) with _ | w
              · simp [original_constructor, hp1x, hg2] at horig
              · simp [hasattr, hg2]
            rw [install_inside_library] at h2
            by_cases hT : isType orig = true
            · simp [hget, hoc, hstore, horig, hT] at h2
              rw [← h2]
              exact ⟨getattr_setattr_self _ _ _, hstash⟩
            · simp [hget, hoc, hstore, horig, hT] at h2
              rw [← h2]
              exact ⟨getattr_setattr_self _ _ _, hstash⟩

/-- Witness for C10: stashing at an already-stashed location leaves the
location unchanged. -/
theorem C10_stash_write_once_before_rebind_witness :
    (store_original_constructor installedLoc installedProxy).2.1 = installedLoc :=
  C10_stash_write_once_before_rebind.1 installedLoc installedProxy rfl

end Syft
